import Mathlib

/-!
Shallow embedding of the geospatial mesh / arc-geometry core of the
`bevy-earth` repository (`src/map.rs`), together with theorems checking the
natural-language specification against it.

Modelling conventions:
* `f32`/`f64` arithmetic is modelled by exact rational arithmetic (`ℚ`);
  decimal literals of the source become the same rational literals.
* Transcendental library functions (`sin`, `cos`, `asin`, `acos`, `atan2`,
  `sqrt`) and the float constant `π` have no exact rational meaning; the
  embedding is parametrised by a record `FloatOps` supplying them, and every
  theorem quantifies over that record, so only properties independent of the
  numeric details of those functions are asserted.
* Vectors (`glam`'s `Vec3`) become a rational 3-vector structure with the
  same componentwise operations; `normalize` divides by the supplied `sqrt`
  of the squared length.
* Rust `Result`/`Option` become `Except`/`Option`.  `Result::unwrap` on the
  UV path is modelled by `unwrapD` with an (unused) default; theorems that
  depend on the unwrapped value carry an `Except.ok` hypothesis instead of
  relying on the default.
-/

namespace BevyEarth

/-- Abstract interface for the floating-point library functions used by
`map.rs` (`f32::sin`, `cos`, `asin`, `acos`, `atan2`, `sqrt` and the constant
`std::f32::consts::PI`).  The embedding is parametric in these. -/
structure FloatOps where
  pi : ℚ
  sqrt : ℚ → ℚ
  sin : ℚ → ℚ
  cos : ℚ → ℚ
  asin : ℚ → ℚ
  acos : ℚ → ℚ
  atan2 : ℚ → ℚ → ℚ

/-- `glam::Vec3` with rational components. -/
structure Vec3 where
  x : ℚ
  y : ℚ
  z : ℚ
deriving DecidableEq, Repr

instance : Add Vec3 := ⟨fun a b => ⟨a.x + b.x, a.y + b.y, a.z + b.z⟩⟩

instance : Sub Vec3 := ⟨fun a b => ⟨a.x - b.x, a.y - b.y, a.z - b.z⟩⟩

instance : Neg Vec3 := ⟨fun a => ⟨-a.x, -a.y, -a.z⟩⟩

instance : SMul ℚ Vec3 := ⟨fun c a => ⟨c * a.x, c * a.y, c * a.z⟩⟩

/-- Dot product, as `glam::Vec3::dot`. -/
def Vec3.dot (a b : Vec3) : ℚ := a.x * b.x + a.y * b.y + a.z * b.z

/-- Cross product, as `glam::Vec3::cross`. -/
def Vec3.cross (a b : Vec3) : Vec3 :=
  ⟨a.y * b.z - a.z * b.y, a.z * b.x - a.x * b.z, a.x * b.y - a.y * b.x⟩

/-- `glam::Vec3::normalize`: the vector divided by its length; the square
root comes from the abstract float interface. -/
def Vec3.normalize (ops : FloatOps) (v : Vec3) : Vec3 :=
  (1 / ops.sqrt (v.dot v)) • v

/-- `const EARTH_RADIUS: f32 = 300.0;` -/
def EARTH_RADIUS : ℚ := 300

/-- `CoordError` from `src/errors.rs`. -/
structure CoordError where
  msg : String
deriving DecidableEq, Repr

/-- `gdal::errors::GdalError`, abstracted to a single opaque-free error
value: the code under verification only constructs and propagates it. -/
inductive GdalError where
  | gdal : GdalError
deriving DecidableEq, Repr

/-- `Coordinates` (latitude/longitude stored in radians). -/
structure Coordinates where
  latitude : ℚ
  longitude : ℚ
deriving DecidableEq, Repr

/-- `impl From<Vec3> for Coordinates`: normalize, then
`lat = y.asin(); lon = x.atan2(z)`. -/
def Coordinates.ofVec3 (ops : FloatOps) (value : Vec3) : Coordinates :=
  let normalized_point := value.normalize ops
  { latitude := ops.asin normalized_point.y
    longitude := ops.atan2 normalized_point.x normalized_point.z }

/-- `Coordinates::as_degrees`: multiply both radian fields by `180.0 / PI`. -/
def Coordinates.as_degrees (ops : FloatOps) (c : Coordinates) : ℚ × ℚ :=
  (c.latitude * (180 / ops.pi), c.longitude * (180 / ops.pi))

/-- `Coordinates::from_degrees`: validate `latitude ∈ [-90, 90]` and
`longitude ∈ [-180, 180]` (both via `RangeInclusive::contains`), then divide
by `180.0 / PI` to store radians. -/
def Coordinates.from_degrees (ops : FloatOps) (latitude longitude : ℚ) :
    Except CoordError Coordinates :=
  if ¬(-90 ≤ latitude ∧ latitude ≤ 90) then
    .error ⟨"Invalid latitude"⟩
  else if ¬(-180 ≤ longitude ∧ longitude ≤ 180) then
    .error ⟨"Invalid longitude"⟩
  else
    .ok { latitude := latitude / (180 / ops.pi)
          longitude := longitude / (180 / ops.pi) }

/-- `Coordinates::get_point_on_sphere`:
`y = lat.sin(); r = lat.cos(); x = lon.sin()*r; z = lon.cos()*r;`
then `Vec3::new(x,y,z).normalize() * EARTH_RADIUS`. -/
def Coordinates.get_point_on_sphere (ops : FloatOps) (c : Coordinates) : Vec3 :=
  let y := ops.sin c.latitude
  let r := ops.cos c.latitude
  let x := ops.sin c.longitude * r
  let z := ops.cos c.longitude * r
  EARTH_RADIUS • ((⟨x, y, z⟩ : Vec3).normalize ops)

/-- `f32::clamp(lo, hi)`. -/
def clampQ (v lo hi : ℚ) : ℚ :=
  if v < lo then lo else if hi < v then hi else v

/-- `fn map(range_a, range_b, value)`: the single linear interpolation
`b0 + (value - a0) * (b1 - b0) / (a1 - a0)`. -/
def map (range_a range_b : ℚ × ℚ) (value : ℚ) : ℚ :=
  range_b.1 + (value - range_a.1) * (range_b.2 - range_b.1) / (range_a.2 - range_a.1)

/-- `fn map_latitude(lat)`: validate `lat ∈ [-90, 90]`; then branch on
`(90.0..=0.0).contains(&lat)` (i.e. `90 ≤ lat ∧ lat ≤ 0`, an empty range)
between the two documented linear pieces. -/
def map_latitude (lat : ℚ) : Except CoordError ℚ :=
  if ¬(-90 ≤ lat ∧ lat ≤ 90) then
    .error ⟨"Invalid latitude"⟩
  else if 90 ≤ lat ∧ lat ≤ 0 then
    .ok (map (90, 0) (0, 0.5) lat)
  else
    .ok (map (0, -90) (0.5, 1) lat)

/-- `fn map_longitude(lon)`: validate `lon ∈ [-180, 180]`; then branch on
`(-180.0..=0.0).contains(&lon)` between the two documented linear pieces. -/
def map_longitude (lon : ℚ) : Except CoordError ℚ :=
  if ¬(-180 ≤ lon ∧ lon ≤ 180) then
    .error ⟨"Invalid longitude"⟩
  else if -180 ≤ lon ∧ lon ≤ 0 then
    .ok (map (-180, 0) (0, 0.5) lon)
  else
    .ok (map (0, 180) (0.5, 1) lon)

/-- `Result::unwrap` on the UV path: returns the `ok` payload; an `error`
is a panic in the source, rendered here by a default never relied upon. -/
def unwrapD (r : Except CoordError ℚ) : ℚ :=
  match r with
  | .ok v => v
  | .error _ => 0

/-- `Coordinates::convert_to_uv_mercator`: degrees, then
`(u, v) = (map_longitude(lon).unwrap(), map_latitude(lat).unwrap())`. -/
def Coordinates.convert_to_uv_mercator (ops : FloatOps) (c : Coordinates) : ℚ × ℚ :=
  let dl := c.as_degrees ops
  (unwrapD (map_longitude dl.2), unwrapD (map_latitude dl.1))

/-- Modelled from the spec: the latitude→v map as the spec's two linear
pieces, `[90°,0°] → [0.0,0.5]` and `[0°,-90°] → [0.5,1.0]`, each a single
linear interpolation. -/
def spec_map_latitude (lat : ℚ) : ℚ :=
  if 0 ≤ lat then map (90, 0) (0, 0.5) lat else map (0, -90) (0.5, 1) lat

/-- Modelled from the spec: the longitude→u map as the spec's two linear
pieces, `[-180°,0°] → [0.0,0.5]` and `[0°,180°] → [0.5,1.0]`. -/
def spec_map_longitude (lon : ℚ) : ℚ :=
  if lon ≤ 0 then map (-180, 0) (0, 0.5) lon else map (0, 180) (0.5, 1) lon

/-- `Coordinates::arc_to(other, num_segments, arc_height)`: great-circle arc
between two coordinates.  `start_point`/`end_point` are the unit endpoint
vectors, `angle = acos(clamp(dot, -1, 1))`; below `0.001` the two endpoints
scaled by `EARTH_RADIUS` are returned directly, otherwise `num_segments + 1`
slerp points with a parabolic height profile. -/
def Coordinates.arc_to (ops : FloatOps) (self other : Coordinates)
    (num_segments : ℕ) (arc_height : ℚ) : List Vec3 :=
  let start_point := (self.get_point_on_sphere ops).normalize ops
  let end_point := (other.get_point_on_sphere ops).normalize ops
  let dot_product := clampQ (start_point.dot end_point) (-1) 1
  let angle := ops.acos dot_product
  if angle < 0.001 then
    [EARTH_RADIUS • start_point, EARTH_RADIUS • end_point]
  else
    (List.range (num_segments + 1)).map fun (i : ℕ) =>
      let t : ℚ := (i : ℚ) / (num_segments : ℚ)
      let sin_angle := ops.sin angle
      let a := ops.sin ((1 - t) * angle) / sin_angle
      let b := ops.sin (t * angle) / sin_angle
      let interpolated := (a • start_point + b • end_point).normalize ops
      let height_multiplier := 4 * t * (1 - t)
      let height_offset := arc_height * height_multiplier
      let radius := EARTH_RADIUS + height_offset
      radius • interpolated

/-- The mesh attribute buffers extracted from a `bevy` `Mesh`: positions,
normals, UVs and triangle indices (`generate_tangents` and the `Mesh`
wrapper belong to the host engine and are not modelled). -/
structure MeshBuffers where
  positions : List Vec3
  normals : List Vec3
  uvs : List (ℚ × ℚ)
  indices : List ℕ
deriving DecidableEq, Repr

/-- A per-vertex elevation sampler standing for
`RasterData::get_coordinate_height` as used by `generate_face`: from
`(lat, lon)` in degrees to `Result<Option<f64>, GdalError>`. -/
def Sampler : Type := ℚ → ℚ → Except GdalError (Option ℚ)

/-- `generate_face`: `axis_a = (normal.y, normal.z, normal.x)`. -/
def face_axis_a (normal : Vec3) : Vec3 := ⟨normal.y, normal.z, normal.x⟩

/-- `generate_face`: `axis_b = axis_a.cross(normal)`. -/
def face_axis_b (normal : Vec3) : Vec3 := (face_axis_a normal).cross normal

/-- `generate_face`, per-vertex: the point on the unit cube for grid cell
`(x, y)`: `percent = (x, y) / (resolution - 1)`;
`normal + (percent.x - x_offset)*axis_a + (percent.y - y_offset)*axis_b`. -/
def facePoint (normal : Vec3) (resolution : ℕ) (x_offset y_offset : ℚ)
    (x y : ℕ) : Vec3 :=
  let px : ℚ := (x : ℚ) / ((resolution - 1 : ℕ) : ℚ)
  let py : ℚ := (y : ℚ) / ((resolution - 1 : ℕ) : ℚ)
  normal + (px - x_offset) • face_axis_a normal + (py - y_offset) • face_axis_b normal

/-- `generate_face`, per-vertex: `(lat, lon)` in degrees of the normalized
cube point, via `Coordinates::from(point.normalize())` then `as_degrees`. -/
def faceLatLon (ops : FloatOps) (normal : Vec3) (resolution : ℕ)
    (x_offset y_offset : ℚ) (x y : ℕ) : ℚ × ℚ :=
  ((Coordinates.ofVec3 ops
      ((facePoint normal resolution x_offset y_offset x y).normalize ops)).as_degrees ops)

/-- `generate_face`, per-vertex: the displaced vertex position.  On
`Ok(Some(offset))` the radius gains `offset / 300` when `offset > 0` and
`0` otherwise; on `Ok(None)` or `Err(_)` the vertex stays at
`EARTH_RADIUS`. -/
def faceVertexPos (ops : FloatOps) (sample : Sampler) (normal : Vec3)
    (resolution : ℕ) (x_offset y_offset : ℚ) (x y : ℕ) : Vec3 :=
  let p := facePoint normal resolution x_offset y_offset x y
  let ll := faceLatLon ops normal resolution x_offset y_offset x y
  match sample ll.1 ll.2 with
  | .ok (some offset) =>
      (EARTH_RADIUS + (if 0 < offset then offset / 300 else 0)) • p.normalize ops
  | _ => EARTH_RADIUS • p.normalize ops

/-- `generate_face`, per-vertex: the emitted `u` texture coordinate,
including both seam corrections.  `first` is the longitude in degrees of
the tile's first vertex (`x = 0, y = 0`), held in `first_longitude` in the
source. -/
def faceU (ops : FloatOps) (normal : Vec3) (resolution : ℕ)
    (x_offset y_offset : ℚ) (x y : ℕ) : ℚ :=
  let ll := faceLatLon ops normal resolution x_offset y_offset x y
  let lat := ll.1
  let lon := ll.2
  let first := (faceLatLon ops normal resolution x_offset y_offset 0 0).2
  let u := unwrapD (map_longitude lon)
  let u := if first < 0 ∧ 0 < lon ∧ lat < 89 ∧ -89 < lat then 0 else u
  if x = 0 ∧ lon = 180 ∧ lat < -40 then 0 else u

/-- `generate_face`, per-vertex: the emitted `v` texture coordinate
(`map_latitude(lat).unwrap()`, untouched by the seam corrections). -/
def faceV (ops : FloatOps) (normal : Vec3) (resolution : ℕ)
    (x_offset y_offset : ℚ) (x y : ℕ) : ℚ :=
  unwrapD (map_latitude (faceLatLon ops normal resolution x_offset y_offset x y).1)

/-- `generate_face`, per-cell: the six triangle indices pushed when
`x != resolution - 1 && y != resolution - 1`, with `i = x + y * resolution`:
`[i, i+res, i+res+1, i, i+res+1, i+1]`. -/
def faceCellIndices (resolution x y : ℕ) : List ℕ :=
  if x ≠ resolution - 1 ∧ y ≠ resolution - 1 then
    let i := x + y * resolution
    [i, i + resolution, i + resolution + 1, i, i + resolution + 1, i + 1]
  else []

/-- `fn generate_face(normal, resolution, x_offset, y_offset, rs)`: the
row-major double loop (`y` outer, `x` inner) collecting the displaced
vertex, its negated-normalized-cube-point normal, its seam-corrected UV,
and per-cell triangle indices. -/
def generate_face (ops : FloatOps) (sample : Sampler) (normal : Vec3)
    (resolution : ℕ) (x_offset y_offset : ℚ) : MeshBuffers :=
  { positions := (List.range resolution).flatMap fun y =>
      (List.range resolution).map fun x =>
        faceVertexPos ops sample normal resolution x_offset y_offset x y
    normals := (List.range resolution).flatMap fun y =>
      (List.range resolution).map fun x =>
        -((facePoint normal resolution x_offset y_offset x y).normalize ops)
    uvs := (List.range resolution).flatMap fun y =>
      (List.range resolution).map fun x =>
        (faceU ops normal resolution x_offset y_offset x y,
         faceV ops normal resolution x_offset y_offset x y)
    indices := (List.range resolution).flatMap fun y =>
      (List.range resolution).flatMap fun x =>
        faceCellIndices resolution x y }

/-- `create_line_mesh`, per segment `i`: the four quad corners from
`start = points[i]`, `end = points[i+1]`, offset `±thickness/2` along
`perpendicular = normalize(direction × to_center)`; the front copy is
followed by an identical back copy. -/
def segQuad (ops : FloatOps) (points : List Vec3) (thickness : ℚ) (i : ℕ) :
    List Vec3 :=
  let start := points.getD i ⟨0, 0, 0⟩
  let stop := points.getD (i + 1) ⟨0, 0, 0⟩
  let direction := (stop - start).normalize ops
  let to_center := -(start.normalize ops)
  let perpendicular := (direction.cross to_center).normalize ops
  let half_thickness := thickness * 0.5
  let v0 := start - half_thickness • perpendicular
  let v1 := start + half_thickness • perpendicular
  let v2 := stop + half_thickness • perpendicular
  let v3 := stop - half_thickness • perpendicular
  [v0, v1, v2, v3, v0, v1, v2, v3]

/-- `create_line_mesh`, per segment `i`: four copies of the outward normal
`points[i].normalize()` followed by four copies of its negation. -/
def segNormals (ops : FloatOps) (points : List Vec3) (i : ℕ) : List Vec3 :=
  let outward := (points.getD i ⟨0, 0, 0⟩).normalize ops
  [outward, outward, outward, outward, -outward, -outward, -outward, -outward]

/-- `create_line_mesh`, per segment: the fixed quad UVs, twice. -/
def segUVs : List (ℚ × ℚ) :=
  [(0, 0), (1, 0), (1, 1), (0, 1), (0, 0), (1, 0), (1, 1), (0, 1)]

/-- `create_line_mesh`, per segment `i`: `base_index = 8 * i` (the vertex
count before this segment); two front triangles, then two back triangles
from `back_base = base_index + 4` with reversed winding. -/
def segIndices (i : ℕ) : List ℕ :=
  let base := 8 * i
  let back := base + 4
  [base, base + 1, base + 2, base, base + 2, base + 3,
   back, back + 2, back + 1, back, back + 3, back + 2]

/-- `fn create_line_mesh(points, thickness)`: fewer than 2 points yields an
empty mesh; otherwise one double-sided quad per consecutive point pair. -/
def create_line_mesh (ops : FloatOps) (points : List Vec3) (thickness : ℚ) :
    MeshBuffers :=
  if points.length < 2 then
    { positions := [], normals := [], uvs := [], indices := [] }
  else
    { positions := (List.range (points.length - 1)).flatMap fun i =>
        segQuad ops points thickness i
      normals := (List.range (points.length - 1)).flatMap fun i =>
        segNormals ops points i
      uvs := (List.range (points.length - 1)).flatMap fun _ => segUVs
      indices := (List.range (points.length - 1)).flatMap fun i => segIndices i }

/-- The six entries of a GDAL affine geotransform
(`dataset.geo_transform()`): `c0 = origin_x`, `c1 = scale_x`, `c3 =
origin_y`, `c5 = scale_y` (the rotation entries `c2`, `c4` are unused by
the code). -/
structure GeoTransform where
  c0 : ℚ
  c1 : ℚ
  c2 : ℚ
  c3 : ℚ
  c4 : ℚ
  c5 : ℚ
deriving DecidableEq, Repr

/-- Rust `f64 as isize`: truncation toward zero. -/
def truncQ (q : ℚ) : ℤ := if 0 ≤ q then ⌊q⌋ else ⌈q⌉

/-- `RasterData::get_coordinate_height(latitude, longitude)`, parametrised
by the reprojection `T` (the stored `CoordTransform`, which may fail), the
dataset geotransform `gt`, and the band-1 pixel read `readPixel`.

The source calls `self.transform.transform_coords(&mut [lon], &mut [lat],
&mut [])?`: the array literals `[lon]` and `[lat]` are temporaries built
from copies of the variables, so the call mutates (reprojects) only those
temporaries, which are then dropped; a reprojection failure still
propagates via `?`.  The pixel coordinates are afterwards computed from
the unchanged `lon`/`lat` values:
`x = (lon - gt[0]) / gt[1]`, `y = (lat - gt[3]) / gt[5]`, each `as isize`. -/
def get_coordinate_height (T : ℚ × ℚ → Except GdalError (ℚ × ℚ))
    (gt : GeoTransform) (readPixel : ℤ × ℤ → Except GdalError (Option ℚ))
    (latitude longitude : ℚ) : Except GdalError (Option ℚ) :=
  let lat := latitude
  let lon := longitude
  match T (lon, lat) with
  | .error e => .error e
  | .ok _dropped =>
      let x := (lon - gt.c0) / gt.c1
      let y := (lat - gt.c3) / gt.c5
      readPixel (truncQ x, truncQ y)

/-- Modelled from the spec: `sample(lat, lon)` first reprojects the query
coordinate into the raster's native spatial reference using the stored
transform, and keys the pixel read by the reprojected coordinate
(`pixel_x = (x - origin_x)/scale_x`, `pixel_y = (y - origin_y)/scale_y`). -/
def spec_sample (T : ℚ × ℚ → Except GdalError (ℚ × ℚ)) (gt : GeoTransform)
    (readPixel : ℤ × ℤ → Except GdalError (Option ℚ))
    (latitude longitude : ℚ) : Except GdalError (Option ℚ) :=
  match T (longitude, latitude) with
  | .error e => .error e
  | .ok (lon, lat) =>
      let x := (lon - gt.c0) / gt.c1
      let y := (lat - gt.c3) / gt.c5
      readPixel (truncQ x, truncQ y)

/-- Decidable equality for `Except`, used to evaluate results on concrete
inputs. -/
instance {ε α : Type} [DecidableEq ε] [DecidableEq α] : DecidableEq (Except ε α) := fun
  | .ok a, .ok b => if h : a = b then .isTrue (by rw [h]) else .isFalse (by simp [h])
  | .ok _, .error _ => .isFalse (by simp)
  | .error _, .ok _ => .isFalse (by simp)
  | .error e, .error f => if h : e = f then .isTrue (by rw [h]) else .isFalse (by simp [h])

/-- `arc_to`: the unit endpoint vector of a coordinate
(`get_point_on_sphere().normalize()`). -/
def arcP0 (ops : FloatOps) (c : Coordinates) : Vec3 :=
  (c.get_point_on_sphere ops).normalize ops

/-- `arc_to`: `angle = acos(start.dot(end).clamp(-1, 1))` between the unit
endpoint vectors. -/
def arcAngle (ops : FloatOps) (c1 c2 : Coordinates) : ℚ :=
  ops.acos (clampQ ((arcP0 ops c1).dot (arcP0 ops c2)) (-1) 1)

/-- `arc_to`: the slerp direction at step `i` of `n`
(`normalize(p0 * sin((1-t)*angle)/sin(angle) + p1 * sin(t*angle)/sin(angle))`
with `t = i / n`). -/
def arcDir (ops : FloatOps) (c1 c2 : Coordinates) (n i : ℕ) : Vec3 :=
  let t : ℚ := (i : ℚ) / (n : ℚ)
  let angle := arcAngle ops c1 c2
  ((ops.sin ((1 - t) * angle) / ops.sin angle) • arcP0 ops c1
    + (ops.sin (t * angle) / ops.sin angle) • arcP0 ops c2).normalize ops

/-- `arc_to`: the full emitted point at step `i` of `n`: the slerp direction
scaled by `EARTH_RADIUS + arc_height * 4*t*(1-t)`. -/
def arcPointFormula (ops : FloatOps) (c1 c2 : Coordinates) (n : ℕ)
    (arc_height : ℚ) (i : ℕ) : Vec3 :=
  let t : ℚ := (i : ℚ) / (n : ℚ)
  (EARTH_RADIUS + arc_height * (4 * t * (1 - t))) • arcDir ops c1 c2 n i

/-- A concrete instantiation of the abstract float interface, used to
evaluate the embedding on concrete inputs: `pi = 180` makes the
degree conversion the identity, `sqrt ≡ 1` makes `normalize` the identity,
`asin ≡ 0` puts every sphere point on the equator and `atan2 x z = x` reads
the longitude directly off the first component. -/
def opsW : FloatOps :=
  { pi := 180
    sqrt := fun _ => 1
    sin := fun q => q
    cos := fun q => q
    asin := fun _ => 0
    acos := fun q => q
    atan2 := fun x _ => x }

/-- A concrete sampler returning elevation `600` everywhere. -/
def sampleW : Sampler := fun _ _ => .ok (some 600)

/-- A concrete sampler failing everywhere. -/
def sampleErr : Sampler := fun _ _ => .error .gdal

/-- A concrete reprojection shifting the x (longitude-like) coordinate by
`+10`, standing for a raster whose native spatial reference differs from
WGS84. -/
def shiftT : ℚ × ℚ → Except GdalError (ℚ × ℚ) := fun p => .ok (p.1 + 10, p.2)

/-- A concrete geotransform: origin `(-180, 90)`, scales `(1, -1)` (the
whole-earth raster layout). -/
def gtW : GeoTransform := ⟨-180, 1, 0, 90, 0, -1⟩

/-- A concrete band read echoing the pixel x coordinate, so the result
shows which pixel was read. -/
def readPixelW : ℤ × ℤ → Except GdalError (Option ℚ) := fun p => .ok (some (p.1 : ℚ))

/-! ## Theorems -/

/-- Helper: `getD` on a mapped range. -/
theorem getD_range_map {β : Type} (g : ℕ → β) (m x : ℕ) (hx : x < m) (d : β) :
    ((List.range m).map g).getD x d = g x := by
  simp [List.getD_eq_getElem?_getD, List.getElem?_map, List.getElem?_range hx]

/-- Helper: componentwise scalar multiplication. -/
@[simp] theorem Vec3.smul_mk (c a b d : ℚ) :
    c • (Vec3.mk a b d) = ⟨c * a, c * b, c * d⟩ := rfl

/-- Helper: componentwise addition. -/
@[simp] theorem Vec3.add_mk (a b c d e f : ℚ) :
    (Vec3.mk a b c) + Vec3.mk d e f = ⟨a + d, b + e, c + f⟩ := rfl

/-- Helper: componentwise subtraction. -/
@[simp] theorem Vec3.sub_mk (a b c d e f : ℚ) :
    (Vec3.mk a b c) - Vec3.mk d e f = ⟨a - d, b - e, c - f⟩ := rfl

/-- Helper: componentwise negation. -/
@[simp] theorem Vec3.neg_mk (a b c : ℚ) :
    -(Vec3.mk a b c) = ⟨-a, -b, -c⟩ := rfl

/-- Helper: a `flatMap` whose pieces all have length `m` has length
`l.length * m`. -/
theorem length_flatMap_const {α β : Type} (l : List α) (f : α → List β) (m : ℕ)
    (hf : ∀ a ∈ l, (f a).length = m) : (l.flatMap f).length = l.length * m := by
  induction l with
  | nil => simp
  | cons a l ih =>
      simp only [List.flatMap_cons, List.length_append, List.length_cons]
      rw [hf a (by simp), ih (fun b hb => hf b (by simp [hb]))]
      ring

/-- Helper: the element at flat index `x + y * m` of a row-major
`flatMap`/`map` double loop over `List.range` is the `(x, y)` entry. -/
theorem getD_flatMap_range_map {β : Type} (n m x y : ℕ) (f : ℕ → ℕ → β) (d : β)
    (hx : x < m) (hy : y < n) :
    (((List.range n).flatMap fun j => (List.range m).map fun i => f i j).getD
      (x + y * m) d) = f x y := by
  induction n with
  | zero => omega
  | succ n ih =>
      rw [show List.range (n + 1) = List.range n ++ [n] from List.range_succ n]
      rw [List.flatMap_append]
      have hlen : ((List.range n).flatMap fun j => (List.range m).map fun i => f i j).length
          = n * m := by
        rw [length_flatMap_const _ _ m (fun a _ => by simp), List.length_range]
      rcases Nat.lt_or_ge y n with hcase | hcase
      · rw [List.getD_append]
        · exact ih hcase
        · rw [hlen]
          have h1 : (y + 1) * m ≤ n * m := Nat.mul_le_mul_right m (by omega)
          have h2 : (y + 1) * m = y * m + m := by ring
          linarith
      · have hy' : y = n := by omega
        subst hy'
        rw [List.getD_append_right _ _ _ _ (by rw [hlen]; exact Nat.le_add_left _ _)]
        rw [hlen, Nat.add_sub_cancel]
        simp only [List.flatMap_cons, List.flatMap_nil, List.append_nil]
        exact getD_range_map _ m x hx d

/-- Helper: congruence for `flatMap`. -/
theorem flatMap_congr {α β : Type} (l : List α) (f g : α → List β)
    (h : ∀ a ∈ l, f a = g a) : l.flatMap f = l.flatMap g := by
  induction l with
  | nil => rfl
  | cons a l ih =>
      simp only [List.flatMap_cons]
      rw [h a (by simp), ih (fun b hb => h b (by simp [hb]))]

/-- Helper: the triangle indices of one grid row of `generate_face`: empty
for the last row, six indices for each of the first `resolution - 1` cells
otherwise. -/
theorem faceCellIndices_row_length (s y : ℕ) :
    ((List.range (s + 1)).flatMap fun x => faceCellIndices (s + 1) x y).length
      = if y = s then 0 else 6 * s := by
  split_ifs with hy
  · rw [flatMap_congr _ _ (fun _ => []) (fun x _ => by simp [faceCellIndices, hy])]
    rw [length_flatMap_const (List.range (s + 1)) (fun _ => ([] : List ℕ)) 0
      (fun a _ => rfl)]
    simp
  · rw [show List.range (s + 1) = List.range s ++ [s] from List.range_succ s]
    rw [List.flatMap_append]
    have h2 : ([s].flatMap fun x => faceCellIndices (s + 1) x y) = [] := by
      simp [faceCellIndices]
    rw [h2, List.append_nil]
    rw [flatMap_congr _ _
        (fun x => [x + y * (s + 1), x + y * (s + 1) + (s + 1),
          x + y * (s + 1) + (s + 1) + 1, x + y * (s + 1),
          x + y * (s + 1) + (s + 1) + 1, x + y * (s + 1) + 1])
        (fun x hxmem => by
          rw [List.mem_range] at hxmem
          simp [faceCellIndices, Nat.ne_of_lt hxmem, hy])]
    rw [length_flatMap_const (List.range s)
      (fun x => [x + y * (s + 1), x + y * (s + 1) + (s + 1),
        x + y * (s + 1) + (s + 1) + 1, x + y * (s + 1),
        x + y * (s + 1) + (s + 1) + 1, x + y * (s + 1) + 1]) 6
      (fun a _ => rfl), List.length_range]
    ring

/-- Claim C8: UV boundary exactness: `map_latitude 90 = 0.0`,
`map_latitude (-90) = 1.0`, `map_latitude 0 = 0.5`,
`map_longitude (-180) = 0.0`, `map_longitude 180 = 1.0`,
`map_longitude 0 = 0.5`, all exactly. -/
theorem claim_C8_uv_boundary_exact :
    map_latitude 90 = .ok 0 ∧ map_latitude (-90) = .ok 1 ∧
    map_latitude 0 = .ok 0.5 ∧ map_longitude (-180) = .ok 0 ∧
    map_longitude 180 = .ok 1 ∧ map_longitude 0 = .ok 0.5 := by
  refine ⟨?_, ?_, ?_, ?_, ?_, ?_⟩ <;> norm_num [map_latitude, map_longitude, map]

/-- Claim C5: `from_degrees(lat, lon)` returns an `InvalidCoordinate`-style
error iff `lat ∉ [-90, 90]` or `lon ∉ [-180, 180]` (bounds inclusive); in
particular `from_degrees 91 0` and `from_degrees 0 181` both fail, and on
success the stored coordinate is the input divided by `180 / PI`, i.e.
converted to radians. -/
theorem claim_C5_from_degrees_validation (ops : FloatOps) (lat lon : ℚ) :
    ((∃ e, Coordinates.from_degrees ops lat lon = .error e) ↔
      (lat < -90 ∨ 90 < lat) ∨ (lon < -180 ∨ 180 < lon)) ∧
    (∃ e, Coordinates.from_degrees ops 91 0 = .error e) ∧
    (∃ e, Coordinates.from_degrees ops 0 181 = .error e) ∧
    (∀ c, Coordinates.from_degrees ops lat lon = .ok c →
      c = ⟨lat / (180 / ops.pi), lon / (180 / ops.pi)⟩) := by
  refine ⟨?_, ?_, ?_, ?_⟩
  · rw [show ((lat < -90 ∨ 90 < lat) ∨ (lon < -180 ∨ 180 < lon)) ↔
        ¬((-90 ≤ lat ∧ lat ≤ 90) ∧ (-180 ≤ lon ∧ lon ≤ 180)) by
      simp only [not_and_or, not_le]]
    unfold Coordinates.from_degrees
    split_ifs with h1 h2 <;> simp_all
  · exact ⟨⟨"Invalid latitude"⟩, by norm_num [Coordinates.from_degrees]⟩
  · exact ⟨⟨"Invalid longitude"⟩, by norm_num [Coordinates.from_degrees]⟩
  · intro c h
    unfold Coordinates.from_degrees at h
    split_ifs at h
    injection h with h
    exact h.symm

/-- Claim C5 witness: `from_degrees 91 0` fails (instantiating the
validation equivalence at `lat = 91`, `lon = 0`). -/
theorem claim_C5_witness :
    ∃ e, Coordinates.from_degrees opsW 91 0 = .error e :=
  (claim_C5_from_degrees_validation opsW 91 0).1.mpr (by norm_num)

/-- Claim C10: the piecewise UV maps collapse to single linear functions:
the first branch range `(90.0..=0.0)` of `map_latitude` is empty, for all
valid latitudes `map_latitude` equals the single linear map `(90-lat)/180`
(which also equals the spec's two-piece map), and for all valid longitudes
`map_longitude` equals `(lon+180)/360` (also equal to the spec's two-piece
map). -/
theorem claim_C10_uv_maps_one_piece (lat lon : ℚ)
    (hlat1 : -90 ≤ lat) (hlat2 : lat ≤ 90)
    (hlon1 : -180 ≤ lon) (hlon2 : lon ≤ 180) :
    ¬(90 ≤ lat ∧ lat ≤ 0) ∧
    map_latitude lat = .ok ((90 - lat) / 180) ∧
    spec_map_latitude lat = (90 - lat) / 180 ∧
    map_longitude lon = .ok ((lon + 180) / 360) ∧
    spec_map_longitude lon = (lon + 180) / 360 := by
  refine ⟨fun h => by linarith [h.1, h.2], ?_, ?_, ?_, ?_⟩
  · unfold map_latitude
    rw [if_neg (by push_neg; exact ⟨hlat1, hlat2⟩),
        if_neg (by push_neg; intro h; linarith)]
    congr 1
    unfold map
    norm_num
    ring
  · unfold spec_map_latitude map
    split_ifs <;> (norm_num; ring)
  · unfold map_longitude
    rw [if_neg (by push_neg; exact ⟨hlon1, hlon2⟩)]
    split_ifs with h
    · congr 1
      unfold map
      norm_num
      ring
    · congr 1
      unfold map
      norm_num
      ring
  · unfold spec_map_longitude map
    split_ifs <;> (norm_num; ring)

/-- Claim C10 witness: the one-piece forms evaluated at `lat = 45`,
`lon = -30`. -/
theorem claim_C10_witness :
    ¬((90 : ℚ) ≤ 45 ∧ (45 : ℚ) ≤ 0) ∧
    map_latitude 45 = .ok ((90 - 45) / 180) ∧
    spec_map_latitude 45 = (90 - 45) / 180 ∧
    map_longitude (-30) = .ok ((-30 + 180) / 360) ∧
    spec_map_longitude (-30) = (-30 + 180) / 360 :=
  claim_C10_uv_maps_one_piece 45 (-30) (by norm_num) (by norm_num)
    (by norm_num) (by norm_num)

/-- Claim C4: `arc_to` with unit endpoint vectors `p0, p1` and
`angle = acos(clamp(p0·p1, -1, 1))`: if `angle < 0.001` it returns exactly
`[p0*R, p1*R]`; otherwise it returns exactly `num_segments + 1` points, the
`i`-th (`t = i/num_segments`) being the slerp direction scaled by
`R + arc_height*4*t*(1-t)`; hence the scalar radius is `R` at both
endpoints and `R + arc_height` at the `t = 0.5` midpoint for an even
segment count. -/
theorem claim_C4_arc_interpolation (ops : FloatOps) (c1 c2 : Coordinates)
    (n : ℕ) (h : ℚ) :
    (arcAngle ops c1 c2 < 0.001 →
      c1.arc_to ops c2 n h
        = [EARTH_RADIUS • arcP0 ops c1, EARTH_RADIUS • arcP0 ops c2]) ∧
    (¬ arcAngle ops c1 c2 < 0.001 →
      (c1.arc_to ops c2 n h).length = n + 1 ∧
      (∀ i, i ≤ n →
        (c1.arc_to ops c2 n h).getD i ⟨0, 0, 0⟩ = arcPointFormula ops c1 c2 n h i) ∧
      (c1.arc_to ops c2 n h).getD 0 ⟨0, 0, 0⟩ = EARTH_RADIUS • arcDir ops c1 c2 n 0 ∧
      ((n : ℚ) ≠ 0 →
        (c1.arc_to ops c2 n h).getD n ⟨0, 0, 0⟩ = EARTH_RADIUS • arcDir ops c1 c2 n n) ∧
      (∀ k, n = 2 * k → 1 ≤ k →
        (c1.arc_to ops c2 n h).getD k ⟨0, 0, 0⟩
          = (EARTH_RADIUS + h) • arcDir ops c1 c2 n k)) := by
  have harc : c1.arc_to ops c2 n h =
      if arcAngle ops c1 c2 < 0.001 then
        [EARTH_RADIUS • arcP0 ops c1, EARTH_RADIUS • arcP0 ops c2]
      else
        (List.range (n + 1)).map fun i => arcPointFormula ops c1 c2 n h i := by
    simp only [Coordinates.arc_to, arcPointFormula, arcDir, arcAngle, arcP0]
  constructor
  · intro hlt
    rw [harc, if_pos hlt]
  · intro hge
    rw [harc, if_neg hge]
    have hform : ∀ i, i ≤ n →
        (((List.range (n + 1)).map fun i => arcPointFormula ops c1 c2 n h i).getD
          i ⟨0, 0, 0⟩) = arcPointFormula ops c1 c2 n h i := by
      intro i hi
      exact getD_range_map _ (n + 1) i (by omega) _
    refine ⟨by simp, hform, ?_, ?_, ?_⟩
    · rw [hform 0 (by omega)]
      simp only [arcPointFormula]
      norm_num
    · intro hn
      rw [hform n le_rfl]
      simp only [arcPointFormula]
      rw [show (EARTH_RADIUS + h * (4 * ((n : ℚ) / (n : ℚ)) * (1 - (n : ℚ) / (n : ℚ))))
            = EARTH_RADIUS from by rw [div_self hn]; ring]
    · intro k hk hk1
      subst hk
      rw [hform k (by omega)]
      simp only [arcPointFormula]
      have hkq : ((k : ℚ) / ((2 * k : ℕ) : ℚ)) = 1 / 2 := by
        have : ((k : ℚ)) ≠ 0 := by
          simpa using Nat.cast_ne_zero.mpr (by omega : k ≠ 0)
        push_cast
        field_simp
        ring
      rw [hkq]
      norm_num

/-- Claim C4 witness: for concrete coordinates whose slerp angle is `1`
under the concrete float interface, a 2-segment arc of height 7 has 3
points and its midpoint sits at radius `EARTH_RADIUS + 7`. -/
theorem claim_C4_witness :
    (Coordinates.arc_to opsW ⟨1, 1⟩ ⟨2, 2⟩ 2 7).length = 2 + 1 ∧
    (Coordinates.arc_to opsW ⟨1, 1⟩ ⟨2, 2⟩ 2 7).getD 1 ⟨0, 0, 0⟩
      = (EARTH_RADIUS + 7) • arcDir opsW ⟨1, 1⟩ ⟨2, 2⟩ 2 1 := by
  have hangle : ¬ arcAngle opsW ⟨1, 1⟩ ⟨2, 2⟩ < 0.001 := by
    norm_num [arcAngle, arcP0, clampQ, Coordinates.get_point_on_sphere,
      Vec3.normalize, Vec3.dot, opsW, EARTH_RADIUS, Vec3.smul_mk]
  have h2 := (claim_C4_arc_interpolation opsW ⟨1, 1⟩ ⟨2, 2⟩ 2 7).2 hangle
  exact ⟨h2.1, h2.2.2.2.2 1 rfl le_rfl⟩

/-- Claim C7: for every `resolution = r ≥ 2`, face normal and tile offsets,
`generate_face` produces exactly `r*r` vertices (and as many normals and
UVs) and exactly `6*(r-1)*(r-1)` triangle indices, each index a valid
vertex offset below `r*r`. -/
theorem claim_C7_face_mesh_size (ops : FloatOps) (sample : Sampler)
    (normal : Vec3) (r : ℕ) (xo yo : ℚ) (hr : 2 ≤ r) :
    (generate_face ops sample normal r xo yo).positions.length = r * r ∧
    (generate_face ops sample normal r xo yo).normals.length = r * r ∧
    (generate_face ops sample normal r xo yo).uvs.length = r * r ∧
    (generate_face ops sample normal r xo yo).indices.length = 6 * (r - 1) * (r - 1) ∧
    (∀ j ∈ (generate_face ops sample normal r xo yo).indices, j < r * r) := by
  obtain ⟨s, rfl⟩ : ∃ s, r = s + 1 := ⟨r - 1, by omega⟩
  have hs : 1 ≤ s := by omega
  refine ⟨?_, ?_, ?_, ?_, ?_⟩
  · simp only [generate_face]
    rw [length_flatMap_const _ _ (s + 1) (fun a _ => by simp), List.length_range]
  · simp only [generate_face]
    rw [length_flatMap_const _ _ (s + 1) (fun a _ => by simp), List.length_range]
  · simp only [generate_face]
    rw [length_flatMap_const _ _ (s + 1) (fun a _ => by simp), List.length_range]
  · simp only [generate_face]
    set L : ℕ → List ℕ :=
      fun y => (List.range (s + 1)).flatMap fun x => faceCellIndices (s + 1) x y
      with hLdef
    rw [show List.range (s + 1) = List.range s ++ [s] from List.range_succ s,
      List.flatMap_append, List.length_append]
    rw [length_flatMap_const _ L (6 * s) (fun y hy => by
      rw [hLdef]
      rw [faceCellIndices_row_length s y,
        if_neg (Nat.ne_of_lt (List.mem_range.mp hy))])]
    have h2 : ([s].flatMap L).length = 0 := by
      simp only [List.flatMap_cons, List.flatMap_nil, List.append_nil, hLdef]
      rw [faceCellIndices_row_length s s, if_pos rfl]
    rw [h2, List.length_range]
    simp only [Nat.add_sub_cancel]
    ring
  · intro j hj
    simp only [generate_face, List.mem_flatMap, List.mem_range] at hj
    obtain ⟨y, hy, x, hx, hjmem⟩ := hj
    simp only [faceCellIndices] at hjmem
    split_ifs at hjmem with hc
    · simp only [List.mem_cons, List.not_mem_nil, or_false] at hjmem
      obtain ⟨hxs, hys⟩ := hc
      simp only [Nat.add_sub_cancel] at hxs hys
      have hx' : x + 1 ≤ s := by omega
      have hy' : y + 1 ≤ s := by omega
      have h1 : (y + 1) * (s + 1) ≤ s * (s + 1) :=
        Nat.mul_le_mul_right (s + 1) hy'
      have e1 : (y + 1) * (s + 1) = y * (s + 1) + (s + 1) := by ring
      have e2 : s * (s + 1) = s * s + s := by ring
      have e3 : (s + 1) * (s + 1) = s * s + 2 * s + 1 := by ring
      have hmax : x + y * (s + 1) + (s + 1) + 1 < (s + 1) * (s + 1) := by
        linarith
      rcases hjmem with h | h | h | h | h | h <;> subst h <;> linarith
    · simp at hjmem

/-- Claim C7 witness: the counts at `resolution = 3` with the concrete
float interface and sampler. -/
theorem claim_C7_witness :
    (generate_face opsW sampleW ⟨0, 0, 1⟩ 3 0 0).positions.length = 3 * 3 ∧
    (generate_face opsW sampleW ⟨0, 0, 1⟩ 3 0 0).normals.length = 3 * 3 ∧
    (generate_face opsW sampleW ⟨0, 0, 1⟩ 3 0 0).uvs.length = 3 * 3 ∧
    (generate_face opsW sampleW ⟨0, 0, 1⟩ 3 0 0).indices.length = 6 * (3 - 1) * (3 - 1) ∧
    (∀ j ∈ (generate_face opsW sampleW ⟨0, 0, 1⟩ 3 0 0).indices, j < 3 * 3) :=
  claim_C7_face_mesh_size opsW sampleW ⟨0, 0, 1⟩ 3 0 0 (by omega)

/-- Claim C6: `create_line_mesh` on a polyline of `k ≥ 2` points produces
exactly `8*(k-1)` vertices (with equally many normals and UVs) and
`12*(k-1)` indices — per segment 4 front plus 4 back vertices and two
front triangles plus two back triangles with reversed winding — and on
fewer than 2 points it returns an empty mesh. -/
theorem claim_C6_ribbon_mesh (ops : FloatOps) (points : List Vec3) (t : ℚ) :
    (2 ≤ points.length →
      (create_line_mesh ops points t).positions.length = 8 * (points.length - 1) ∧
      (create_line_mesh ops points t).normals.length = 8 * (points.length - 1) ∧
      (create_line_mesh ops points t).uvs.length = 8 * (points.length - 1) ∧
      (create_line_mesh ops points t).indices.length = 12 * (points.length - 1) ∧
      (create_line_mesh ops points t).indices
        = (List.range (points.length - 1)).flatMap fun i =>
            [8 * i, 8 * i + 1, 8 * i + 2, 8 * i, 8 * i + 2, 8 * i + 3,
             8 * i + 4, 8 * i + 6, 8 * i + 5, 8 * i + 4, 8 * i + 7, 8 * i + 6]) ∧
    (points.length < 2 →
      create_line_mesh ops points t = ⟨[], [], [], []⟩) := by
  constructor
  · intro h2
    rw [create_line_mesh, if_neg (by omega)]
    refine ⟨?_, ?_, ?_, ?_, ?_⟩
    · rw [length_flatMap_const _ _ 8 (fun a _ => by simp [segQuad]),
        List.length_range]
      ring
    · rw [length_flatMap_const _ _ 8 (fun a _ => by simp [segNormals]),
        List.length_range]
      ring
    · rw [length_flatMap_const _ _ 8 (fun a _ => by simp [segUVs]),
        List.length_range]
      ring
    · rw [length_flatMap_const _ _ 12 (fun a _ => by simp [segIndices]),
        List.length_range]
      ring
    · apply flatMap_congr
      intro i _
      simp only [segIndices, List.cons.injEq, and_true]
  · intro hlt
    rw [create_line_mesh, if_pos hlt]

/-- Claim C6 witness: a 3-point polyline gives `16` vertices and `24`
indices; the empty polyline gives the empty mesh. -/
theorem claim_C6_witness :
    (create_line_mesh opsW [⟨1, 0, 0⟩, ⟨0, 1, 0⟩, ⟨0, 0, 1⟩] 1).positions.length
      = 8 * ([⟨1, 0, 0⟩, ⟨0, 1, 0⟩, (⟨0, 0, 1⟩ : Vec3)].length - 1) ∧
    create_line_mesh opsW [] 1 = ⟨[], [], [], []⟩ :=
  ⟨((claim_C6_ribbon_mesh opsW [⟨1, 0, 0⟩, ⟨0, 1, 0⟩, ⟨0, 0, 1⟩] 1).1
      (by simp)).1,
   (claim_C6_ribbon_mesh opsW [] 1).2 (by simp)⟩

/-- Claim C2: per grid vertex of `generate_face`, a positive sample `o`
places the vertex at radius `EARTH_RADIUS + o/300` along the normalized
cube-face direction; a zero or negative sample, an `Ok(None)` and an error
all place it at exactly `EARTH_RADIUS`; and no sampling outcome aborts
mesh generation — the vertex buffer always has full size `r*r`. -/
theorem claim_C2_elevation_fallback (ops : FloatOps) (sample : Sampler)
    (normal : Vec3) (r : ℕ) (xo yo : ℚ) (x y : ℕ)
    (hr : 2 ≤ r) (hx : x < r) (hy : y < r) :
    (∀ o, sample (faceLatLon ops normal r xo yo x y).1
        (faceLatLon ops normal r xo yo x y).2 = .ok (some o) → 0 < o →
      (generate_face ops sample normal r xo yo).positions.getD (x + y * r) ⟨0, 0, 0⟩
        = (EARTH_RADIUS + o / 300) • ((facePoint normal r xo yo x y).normalize ops)) ∧
    (∀ o, sample (faceLatLon ops normal r xo yo x y).1
        (faceLatLon ops normal r xo yo x y).2 = .ok (some o) → ¬ 0 < o →
      (generate_face ops sample normal r xo yo).positions.getD (x + y * r) ⟨0, 0, 0⟩
        = EARTH_RADIUS • ((facePoint normal r xo yo x y).normalize ops)) ∧
    (sample (faceLatLon ops normal r xo yo x y).1
        (faceLatLon ops normal r xo yo x y).2 = .ok none →
      (generate_face ops sample normal r xo yo).positions.getD (x + y * r) ⟨0, 0, 0⟩
        = EARTH_RADIUS • ((facePoint normal r xo yo x y).normalize ops)) ∧
    (∀ e, sample (faceLatLon ops normal r xo yo x y).1
        (faceLatLon ops normal r xo yo x y).2 = .error e →
      (generate_face ops sample normal r xo yo).positions.getD (x + y * r) ⟨0, 0, 0⟩
        = EARTH_RADIUS • ((facePoint normal r xo yo x y).normalize ops)) ∧
    (generate_face ops sample normal r xo yo).positions.length = r * r := by
  have hpos : (generate_face ops sample normal r xo yo).positions.getD
      (x + y * r) ⟨0, 0, 0⟩ = faceVertexPos ops sample normal r xo yo x y := by
    simp only [generate_face]
    exact getD_flatMap_range_map r r x y _ _ hx hy
  have hlen : (generate_face ops sample normal r xo yo).positions.length = r * r := by
    simp only [generate_face]
    rw [length_flatMap_const _ _ r (fun a _ => by simp), List.length_range]
  refine ⟨?_, ?_, ?_, ?_, hlen⟩
  · intro o hs ho
    rw [hpos]
    simp only [faceVertexPos, hs, if_pos ho]
  · intro o hs ho
    rw [hpos]
    simp only [faceVertexPos, hs, if_neg ho]
    norm_num
  · intro hs
    rw [hpos]
    simp only [faceVertexPos, hs]
  · intro e hs
    rw [hpos]
    simp only [faceVertexPos, hs]

/-- Claim C2 witness: with a sampler that returns `600` everywhere the
vertex at `(0,0)` of a `resolution = 2` tile sits at radius `302`, and
with a failing sampler it sits at exactly `EARTH_RADIUS`; the vertex
buffer has length `4` in both cases. -/
theorem claim_C2_witness :
    (generate_face opsW sampleW ⟨0, 0, 1⟩ 2 0 0).positions.getD 0 ⟨0, 0, 0⟩
      = (EARTH_RADIUS + 600 / 300) • ((facePoint ⟨0, 0, 1⟩ 2 0 0 0 0).normalize opsW) ∧
    (generate_face opsW sampleErr ⟨0, 0, 1⟩ 2 0 0).positions.getD 0 ⟨0, 0, 0⟩
      = EARTH_RADIUS • ((facePoint ⟨0, 0, 1⟩ 2 0 0 0 0).normalize opsW) ∧
    (generate_face opsW sampleW ⟨0, 0, 1⟩ 2 0 0).positions.length = 2 * 2 :=
  ⟨(claim_C2_elevation_fallback opsW sampleW ⟨0, 0, 1⟩ 2 0 0 0 0
      (by omega) (by omega) (by omega)).1 600 rfl (by norm_num),
   (claim_C2_elevation_fallback opsW sampleErr ⟨0, 0, 1⟩ 2 0 0 0 0
      (by omega) (by omega) (by omega)).2.2.2.1 .gdal rfl,
   (claim_C2_elevation_fallback opsW sampleW ⟨0, 0, 1⟩ 2 0 0 0 0
      (by omega) (by omega) (by omega)).2.2.2.2⟩

/-- Claim C3: seam correction in `generate_face`.  With `L` the longitude
of the tile's first vertex (`x = 0, y = 0`): a vertex whose longitude is
positive while `L < 0` and whose latitude lies strictly between `-89` and
`89` gets `u = 0.0` exactly; a vertex with `x = 0`, longitude exactly
`180` and latitude below `-40` also gets `u = 0.0`; every other vertex
keeps the `u` computed by `map_longitude`. -/
theorem claim_C3_seam_correction (ops : FloatOps) (sample : Sampler)
    (normal : Vec3) (r : ℕ) (xo yo : ℚ) (x y : ℕ)
    (hr : 2 ≤ r) (hx : x < r) (hy : y < r) :
    (((faceLatLon ops normal r xo yo 0 0).2 < 0 ∧
      0 < (faceLatLon ops normal r xo yo x y).2 ∧
      (faceLatLon ops normal r xo yo x y).1 < 89 ∧
      -89 < (faceLatLon ops normal r xo yo x y).1) →
      ((generate_face ops sample normal r xo yo).uvs.getD (x + y * r) (0, 0)).1 = 0) ∧
    ((x = 0 ∧ (faceLatLon ops normal r xo yo x y).2 = 180 ∧
      (faceLatLon ops normal r xo yo x y).1 < -40) →
      ((generate_face ops sample normal r xo yo).uvs.getD (x + y * r) (0, 0)).1 = 0) ∧
    (¬ ((faceLatLon ops normal r xo yo 0 0).2 < 0 ∧
      0 < (faceLatLon ops normal r xo yo x y).2 ∧
      (faceLatLon ops normal r xo yo x y).1 < 89 ∧
      -89 < (faceLatLon ops normal r xo yo x y).1) →
     ¬ (x = 0 ∧ (faceLatLon ops normal r xo yo x y).2 = 180 ∧
      (faceLatLon ops normal r xo yo x y).1 < -40) →
     ∀ w, map_longitude (faceLatLon ops normal r xo yo x y).2 = .ok w →
      ((generate_face ops sample normal r xo yo).uvs.getD (x + y * r) (0, 0)).1 = w) := by
  have huv : (generate_face ops sample normal r xo yo).uvs.getD (x + y * r) (0, 0)
      = (faceU ops normal r xo yo x y, faceV ops normal r xo yo x y) := by
    simp only [generate_face]
    exact getD_flatMap_range_map r r x y _ _ hx hy
  refine ⟨?_, ?_, ?_⟩
  · intro hcond
    rw [huv]
    simp only [faceU, if_pos hcond]
    split_ifs <;> rfl
  · intro hcond
    rw [huv]
    simp only [faceU, if_pos hcond]
  · intro hnc1 hnc2 w hw
    rw [huv]
    simp only [faceU, if_neg hnc1, if_neg hnc2, hw, unwrapD]

/-- Claim C3 witness: under the concrete float interface, a `2 × 2` tile
with offsets `(1/2, 1/2)` on the `+Z` face has first-vertex longitude
`-1/2`; its vertex `(x, y) = (0, 1)` has longitude `1/2 > 0` and latitude
`0`, so its emitted `u` is exactly `0`. -/
theorem claim_C3_witness :
    ((generate_face opsW sampleW ⟨0, 0, 1⟩ 2 (1/2) (1/2)).uvs.getD
      (0 + 1 * 2) (0, 0)).1 = 0 :=
  (claim_C3_seam_correction opsW sampleW ⟨0, 0, 1⟩ 2 (1/2) (1/2) 0 1
      (by omega) (by omega) (by omega)).1
    (by
      norm_num [faceLatLon, facePoint, face_axis_a, face_axis_b,
        Coordinates.ofVec3, Coordinates.as_degrees, Vec3.normalize, Vec3.dot,
        Vec3.cross, opsW])

/-- Claim C1 (refuted — code bug): `get_coordinate_height` drops the
output of the reprojection call (it is performed on temporary arrays), so
for every successful reprojection the pixel read is keyed by the raw
WGS84 input, not by the reprojected coordinate as the claim states; at
the concrete failing input (`lat = 0`, `lon = 0`, a reprojection shifting
longitude by `+10`, geotransform origin `(-180, 90)` with scales
`(1, -1)`) the code reads pixel `x = 180` while the spec-modelled sampler
reads pixel `x = 190`. -/
theorem claim_C1_pixel_keyed_by_raw_coordinate :
    (∀ (T : ℚ × ℚ → Except GdalError (ℚ × ℚ)) (gt : GeoTransform)
       (readPixel : ℤ × ℤ → Except GdalError (Option ℚ)) (lat lon : ℚ)
       (w : ℚ × ℚ), T (lon, lat) = .ok w →
      get_coordinate_height T gt readPixel lat lon
        = readPixel (truncQ ((lon - gt.c0) / gt.c1), truncQ ((lat - gt.c3) / gt.c5))) ∧
    get_coordinate_height shiftT gtW readPixelW 0 0 = .ok (some 180) ∧
    spec_sample shiftT gtW readPixelW 0 0 = .ok (some 190) := by
  refine ⟨?_, ?_, ?_⟩
  · intro T gt readPixel lat lon w hT
    simp only [get_coordinate_height, hT]
  · simp only [get_coordinate_height, shiftT, gtW, readPixelW, truncQ]
    norm_num
  · simp only [spec_sample, shiftT, gtW, readPixelW, truncQ]
    norm_num

/-- Claim C1 witness: instantiating the raw-coordinate characterization at
the concrete failing input. -/
theorem claim_C1_witness :
    get_coordinate_height shiftT gtW readPixelW 0 0
      = readPixelW (truncQ ((0 - gtW.c0) / gtW.c1), truncQ ((0 - gtW.c3) / gtW.c5)) :=
  (claim_C1_pixel_keyed_by_raw_coordinate).1 shiftT gtW readPixelW 0 0 (10, 0)
    (by norm_num [shiftT])

end BevyEarth
